import Mathlib

/-!
Verification development for the `embassy-pico-test` firmware
(`src/bin/timing.rs`): a single-GPIO square-wave timing benchmark that runs
on two boards (Pico, RP2040 at 125 MHz; Pico 2, RP235x at 150 MHz) and
drives GPIO 2 with one of a menu of delay strategies.

The development shallowly embeds:
  * the platform timing table (clock frequencies, per-instruction cycle
    costs documented in the source comments);
  * the hand-written assembly primitives (`asm_N_cycles_*`,
    `set_gpio2_high`/`set_gpio2_low`) as instruction lists;
  * the per-test loop bodies of the raw-cycle tests T14, T15, T16;
  * the test selector (`Test::single_gpio`'s match) and its panic arm;
  * the toggle-loop control structure as a small command language with a
    big-step semantics;
  * the T19 deadline-scheduling loop;
  * the diagnostic lines emitted before a loop starts.
-/

namespace PicoTest

/-- The two supported boards (`feature = "pico"` / `feature = "pico2"`). -/
inductive Platform
  | pico
  | pico2
  deriving DecidableEq, Repr

/-- Clock frequency `clk_sys_freq()`: 125 MHz on the Pico (RP2040), 150 MHz on the
Pico 2 (RP235x). -/
def clkFreqHz : Platform → ℕ
  | Platform.pico => 125000000
  | Platform.pico2 => 150000000

/-- Nanoseconds per clock cycle, as an exact rational. -/
def nsPerCycle (p : Platform) : ℚ := 1000000000 / (clkFreqHz p : ℚ)

/-- Wall-clock nanoseconds consumed by `c` cycles on platform `p`. -/
def elapsedNs (p : Platform) (c : ℕ) : ℚ := (c : ℚ) * nsPerCycle p

/-- The Thumb instructions appearing in the hand-written assembly of
`timing.rs`: `nop`, `movs` (move immediate), `adds` (add immediate),
`str` (store register), `lsls` (logical shift left), and the loop
back-branch that the Rust `loop` construct compiles to. -/
inductive Instr
  | nop
  | movs
  | adds
  | str
  | lsls
  | branch
  deriving DecidableEq, Repr

/-- Per-instruction cycle cost on the Pico (Cortex-M0+), following the
cycle accounting documented in the source comments: each pin toggle
(`movs` + `str`) is "2 cycles", each `movs`/`adds`/`nop` burns one
cycle, and the loop branch costs 2 cycles. -/
def cyclePico : Instr → ℕ
  | Instr.nop => 1
  | Instr.movs => 1
  | Instr.adds => 1
  | Instr.str => 1
  | Instr.lsls => 1
  | Instr.branch => 2

/-- Total Pico cycle count of an instruction sequence. -/
def cyclesPico (l : List Instr) : ℕ := (l.map cyclePico).sum

/-- Per-instruction cycle cost on the Pico 2 (Cortex-M33) for
non-`nop` instructions: as on the Pico, except that the loop branch
takes one fewer cycle ("the branch takes 1 fewer cycle", comment on
`asm_toggle_gpio2_period_200ns_pico`). -/
def cyclePico2 : Instr → ℕ
  | Instr.nop => 1
  | Instr.movs => 1
  | Instr.adds => 1
  | Instr.str => 1
  | Instr.lsls => 1
  | Instr.branch => 1

/-- Total Pico 2 cycle count of an instruction sequence.  Adjacent
`nop`s dual-issue ("some of the other instructions (likely nops) are
being executed in parallel", comment on
`asm_toggle_gpio2_period_200ns_pico`): a pair of consecutive `nop`s
retires in one cycle. -/
def cyclesPico2 : List Instr → ℕ
  | [] => 0
  | Instr.nop :: Instr.nop :: rest => 1 + cyclesPico2 rest
  | i :: rest => cyclePico2 i + cyclesPico2 rest

/-- Platform-indexed cycle count of an instruction sequence. -/
def cyclesOn : Platform → List Instr → ℕ
  | Platform.pico, l => cyclesPico l
  | Platform.pico2, l => cyclesPico2 l

/-- Embedding of `Test::set_gpio2_high`: `movs r1, #4` then `str r1, [r0]`. -/
def set_gpio2_high : List Instr := [Instr.movs, Instr.str]

/-- Embedding of `Test::set_gpio2_low`: `movs r1, #0` then `str r1, [r0]`. -/
def set_gpio2_low : List Instr := [Instr.movs, Instr.str]

/-- Embedding of `Test::asm_1_cycle_r2`: one `movs`. -/
def asm_1_cycle_r2 : List Instr := [Instr.movs]

/-- Embedding of `Test::asm_2_cycles_add_r2`: `movs` then one `adds`. -/
def asm_2_cycles_add_r2 : List Instr := [Instr.movs, Instr.adds]

/-- Embedding of `Test::asm_3_cycles_add_r2`: `movs` then two `adds`. -/
def asm_3_cycles_add_r2 : List Instr :=
  [Instr.movs, Instr.adds, Instr.adds]

/-- Embedding of `Test::asm_5_cycles_r2`: `movs` then four `adds`. -/
def asm_5_cycles_r2 : List Instr :=
  [Instr.movs, Instr.adds, Instr.adds, Instr.adds, Instr.adds]

/-- Embedding of `Test::asm_9_cycles_add_r2`: `movs` then eight `adds`. -/
def asm_9_cycles_add_r2 : List Instr :=
  Instr.movs :: List.replicate 8 Instr.adds

/-- Embedding of `Test::asm_10_cycles_add_r2`: `movs` then nine `adds`. -/
def asm_10_cycles_add_r2 : List Instr :=
  Instr.movs :: List.replicate 9 Instr.adds

/-- Embedding of `Test::asm_9_cycles_nop`: nine `nop`s. -/
def asm_9_cycles_nop : List Instr := List.replicate 9 Instr.nop

/-- Embedding of `Test::asm_10_cycles_nop`: ten `nop`s. -/
def asm_10_cycles_nop : List Instr := List.replicate 10 Instr.nop

/-- One iteration of the `asm_toggle_gpio2_period_200ns_pico` (T14) loop:
set high, 10 nops, set low, 9 nops, branch back.  The same instruction
stream runs on both platforms. -/
def t14Body : List Instr :=
  set_gpio2_high ++ asm_10_cycles_nop ++ set_gpio2_low ++
    asm_9_cycles_nop ++ [Instr.branch]

/-- One iteration of the `asm_toggle_gpio2_period_200ns` (T15) loop on
platform `p`: the two `asm_3_cycles_add_r2` blocks are compiled in only
under `feature = "pico2"`. -/
def t15Body : Platform → List Instr
  | Platform.pico =>
      set_gpio2_high ++ asm_10_cycles_add_r2 ++ set_gpio2_low ++
        asm_9_cycles_add_r2 ++ [Instr.branch]
  | Platform.pico2 =>
      set_gpio2_high ++ asm_10_cycles_add_r2 ++ asm_3_cycles_add_r2 ++
        set_gpio2_low ++ asm_9_cycles_add_r2 ++ asm_3_cycles_add_r2 ++
        [Instr.branch]

/-- One iteration of the `asm_toggle_gpio2_period_80ns` (T16) loop on
platform `p`: the high phase burns 2 cycles on the Pico and 3 on the
Pico 2; the low phase burns 2 cycles on the Pico and 2 + 2 on the
Pico 2. -/
def t16Body : Platform → List Instr
  | Platform.pico =>
      set_gpio2_high ++ asm_2_cycles_add_r2 ++ set_gpio2_low ++
        asm_2_cycles_add_r2 ++ [Instr.branch]
  | Platform.pico2 =>
      set_gpio2_high ++ asm_3_cycles_add_r2 ++ set_gpio2_low ++
        asm_2_cycles_add_r2 ++ asm_2_cycles_add_r2 ++ [Instr.branch]

/-- One iteration of the `asm_toggle_gpio2_period_min` (T17/T18) loop:
set high, set low, branch back; identical source on both platforms. -/
def tMinBody : List Instr :=
  set_gpio2_high ++ set_gpio2_low ++ [Instr.branch]

/-- The eight "burn N cycles" primitives, paired with their named cycle
count. -/
def burnPrimitives : List (List Instr × ℕ) :=
  [(asm_9_cycles_nop, 9), (asm_10_cycles_nop, 10),
   (asm_1_cycle_r2, 1), (asm_2_cycles_add_r2, 2),
   (asm_3_cycles_add_r2, 3), (asm_5_cycles_r2, 5),
   (asm_9_cycles_add_r2, 9), (asm_10_cycles_add_r2, 10)]

/-- The `TestNum` enum: test identifiers 1 through 25
(`#[repr(i32)] enum TestNum`). -/
inductive TestNum
  | t1 | t2 | t3 | t4 | t5 | t6 | t7 | t8 | t9 | t10
  | t11 | t12 | t13 | t14 | t15 | t16 | t17 | t18 | t19 | t20
  | t21 | t22 | t23 | t24 | t25
  deriving DecidableEq, Repr

/-- The integer value of a `TestNum` (`test_num as i32`). -/
def TestNum.num : TestNum → ℕ
  | t1 => 1 | t2 => 2 | t3 => 3 | t4 => 4 | t5 => 5
  | t6 => 6 | t7 => 7 | t8 => 8 | t9 => 9 | t10 => 10
  | t11 => 11 | t12 => 12 | t13 => 13 | t14 => 14 | t15 => 15
  | t16 => 16 | t17 => 17 | t18 => 18 | t19 => 19 | t20 => 20
  | t21 => 21 | t22 => 22 | t23 => 23 | t24 => 24 | t25 => 25

/-- The four dedicated assembly toggle-loop functions. -/
inductive AsmLoopFn
  | period200nsPico   -- `asm_toggle_gpio2_period_200ns_pico` (T14)
  | period200ns       -- `asm_toggle_gpio2_period_200ns`      (T15)
  | period80ns        -- `asm_toggle_gpio2_period_80ns`       (T16)
  | periodMin         -- `asm_toggle_gpio2_period_min`        (T17/T18)
  deriving DecidableEq, Repr

/-- The delay strategy exercised by one arm of the `Test::single_gpio`
match: a cooperative timer wait, a blocking spin in µs or ns, a
blocking spin followed by one `yield_now().await`, a fixed
`cortex_m::asm::delay`, no delay at all, one of the raw-cycle assembly
loops, or deadline scheduling via `Timer::at` with a running instant. -/
inductive DelayStrategy
  | cooperativeWait (us : ℕ)
  | blockingSpinUs (us : ℕ)
  | blockingSpinNs (ns : ℕ)
  | blockingSpinThenYield (us : ℕ)
  | cortexDelay (cycles : ℕ)
  | noDelay
  | rawCycleAsm (f : AsmLoopFn)
  | deadlineSchedule (us : ℕ)
  deriving DecidableEq, Repr

/-- Outcome of the `Test::single_gpio` match on the test number: either
a never-returning toggle loop driven by a delay strategy, or a panic
(the `unimplemented!` arm) with its message. -/
inductive RunResult
  | toggleLoop (s : DelayStrategy)
  | panicked (msg : String)
  deriving DecidableEq, Repr

/-- The panic message of the fall-through arm:
`unimplemented!("Test \x7b\x7d not implemented", test_num as i32)`,
which panics with a "not implemented: " prefix followed by the
formatted text. -/
def notImplMsg (n : ℕ) : String :=
  "not implemented: Test " ++ Nat.repr n ++ " not implemented"

/-- The `Test::single_gpio` match, arm by arm: the delay strategy each
implemented test's loop pauses with (pause argument values taken from
the source), and the panic result for the unimplemented tests 20-25. -/
def dispatch : TestNum → RunResult
  | TestNum.t1 => RunResult.toggleLoop (DelayStrategy.cooperativeWait 100)
  | TestNum.t2 => RunResult.toggleLoop (DelayStrategy.cooperativeWait 10)
  | TestNum.t3 => RunResult.toggleLoop (DelayStrategy.cooperativeWait 1)
  | TestNum.t4 => RunResult.toggleLoop (DelayStrategy.blockingSpinUs 100)
  | TestNum.t5 => RunResult.toggleLoop (DelayStrategy.blockingSpinUs 10)
  | TestNum.t6 => RunResult.toggleLoop (DelayStrategy.blockingSpinUs 2)
  | TestNum.t7 => RunResult.toggleLoop (DelayStrategy.blockingSpinUs 1)
  | TestNum.t8 => RunResult.toggleLoop (DelayStrategy.blockingSpinNs 100)
  | TestNum.t9 =>
      RunResult.toggleLoop (DelayStrategy.blockingSpinThenYield 100)
  | TestNum.t10 =>
      RunResult.toggleLoop (DelayStrategy.blockingSpinThenYield 10)
  | TestNum.t11 =>
      RunResult.toggleLoop (DelayStrategy.blockingSpinThenYield 1)
  | TestNum.t12 => RunResult.toggleLoop (DelayStrategy.cortexDelay 2)
  | TestNum.t13 => RunResult.toggleLoop DelayStrategy.noDelay
  | TestNum.t14 =>
      RunResult.toggleLoop (DelayStrategy.rawCycleAsm AsmLoopFn.period200nsPico)
  | TestNum.t15 =>
      RunResult.toggleLoop (DelayStrategy.rawCycleAsm AsmLoopFn.period200ns)
  | TestNum.t16 =>
      RunResult.toggleLoop (DelayStrategy.rawCycleAsm AsmLoopFn.period80ns)
  | TestNum.t17 =>
      RunResult.toggleLoop (DelayStrategy.rawCycleAsm AsmLoopFn.periodMin)
  | TestNum.t18 =>
      RunResult.toggleLoop (DelayStrategy.rawCycleAsm AsmLoopFn.periodMin)
  | TestNum.t19 => RunResult.toggleLoop (DelayStrategy.deadlineSchedule 10)
  | n => RunResult.panicked (notImplMsg n.num)

/-- The strategy a result dispatches a toggle loop with, if any. -/
def loopStrategy : RunResult → Option DelayStrategy
  | RunResult.toggleLoop s => some s
  | RunResult.panicked _ => none

/-- The delay strategy each implemented test is documented to use,
written down independently from the per-test documentation (the
description strings and comments: a documented period of `2d` toggled
by half-period pauses of `d`; `none` for the tests documented as
unimplemented).  To be compared against `dispatch`. -/
def docStrategy : TestNum → Option DelayStrategy
  | TestNum.t1 =>  -- "~200us period using yielding Timer::after_micros"
      some (DelayStrategy.cooperativeWait 100)
  | TestNum.t2 =>  -- "~20us period using yielding Timer::after_micros"
      some (DelayStrategy.cooperativeWait 10)
  | TestNum.t3 =>  -- "~2us period using yielding Timer::after_micros"
      some (DelayStrategy.cooperativeWait 1)
  | TestNum.t4 =>  -- "200us period using blocking Delay.delay_us"
      some (DelayStrategy.blockingSpinUs 100)
  | TestNum.t5 =>  -- "20us period using blocking Delay.delay_us"
      some (DelayStrategy.blockingSpinUs 10)
  | TestNum.t6 =>  -- "4us period using blocking Delay.delay_us"
      some (DelayStrategy.blockingSpinUs 2)
  | TestNum.t7 =>  -- "2us period using blocking Delay.delay_us"
      some (DelayStrategy.blockingSpinUs 1)
  | TestNum.t8 =>  -- "not near 200ns period using blocking Delay.delay_ns"
      some (DelayStrategy.blockingSpinNs 100)
  | TestNum.t9 =>  -- "~200us period using blocking Delay.delay_us then yield_now()"
      some (DelayStrategy.blockingSpinThenYield 100)
  | TestNum.t10 => -- "~20us period using blocking Delay.delay_us then yield_now()"
      some (DelayStrategy.blockingSpinThenYield 10)
  | TestNum.t11 => -- "~2us period using blocking Delay.delay_us then yield_now()"
      some (DelayStrategy.blockingSpinThenYield 1)
  | TestNum.t12 => -- "2 cycle delay using blocking cortex_m asm delay"
      some (DelayStrategy.cortexDelay 2)
  | TestNum.t13 => -- "As fast as possible with no delay"
      some DelayStrategy.noDelay
  | TestNum.t14 => -- "200ns period using asm (Pico)" / same asm both boards
      some (DelayStrategy.rawCycleAsm AsmLoopFn.period200nsPico)
  | TestNum.t15 => -- "200ns period using asm on both Pico and Pico 2"
      some (DelayStrategy.rawCycleAsm AsmLoopFn.period200ns)
  | TestNum.t16 => -- "80ns period using asm on both Pico and Pico 2"
      some (DelayStrategy.rawCycleAsm AsmLoopFn.period80ns)
  | TestNum.t17 => -- "48ns period using asm (Pico)", minimum-period loop
      some (DelayStrategy.rawCycleAsm AsmLoopFn.periodMin)
  | TestNum.t18 => -- same loop as T17, high drive strength
      some (DelayStrategy.rawCycleAsm AsmLoopFn.periodMin)
  | TestNum.t19 => -- "20us period", Timer::at with running instant += 10us
      some (DelayStrategy.deadlineSchedule 10)
  | _ => none

end PicoTest

namespace PicoTest

/-- C4: the selector is total on tests 1-19 — each dispatches to a
toggle loop whose strategy and parameters agree with the documented
table — and for every test 20-25 it panics (before any toggle loop
exists) with the `unimplemented!` message, which spells out the exact
requested identifier; it never substitutes a default test. -/
theorem selector_totality_and_loud_failure :
    ∀ n : TestNum,
      loopStrategy (dispatch n) = docStrategy n ∧
      (docStrategy n).isSome = decide (n.num ≤ 19) ∧
      (20 ≤ n.num →
        dispatch n = RunResult.panicked (notImplMsg n.num) ∧
        ∃ a b, notImplMsg n.num = a ++ Nat.repr n.num ++ b) := by
  intro n
  cases n <;>
    first
      | exact ⟨rfl, rfl, fun h => absurd h (by decide)⟩
      | exact ⟨rfl, rfl, fun _ =>
          ⟨rfl, "not implemented: Test ", " not implemented", rfl⟩⟩

/-- Witness for `selector_totality_and_loud_failure`: at test 20 the
selector panics with a message spelling out "20". -/
theorem selector_totality_and_loud_failure_witness :
    dispatch TestNum.t20 = RunResult.panicked (notImplMsg 20) ∧
    (∃ a b, notImplMsg 20 = a ++ Nat.repr 20 ++ b) ∧
    loopStrategy (dispatch TestNum.t1) =
      some (DelayStrategy.cooperativeWait 100) :=
  ⟨((selector_totality_and_loud_failure TestNum.t20).2.2 (by decide)).1,
   ((selector_totality_and_loud_failure TestNum.t20).2.2 (by decide)).2,
   (selector_totality_and_loud_failure TestNum.t1).1⟩

/-- Logical level of the output pin (`embassy_rp::gpio::Level`). -/
inductive PinLevel
  | low
  | high
  deriving DecidableEq, Repr

/-- Per `Output::new(p.PIN_2, Level::Low)`: the pin is constructed driven
low, before any loop starts. -/
def outputInitLevel : PinLevel := PinLevel.low

/-- Observable events of a toggle loop: pin writes, a strategy pause,
or a raw-cycle instruction burst. -/
inductive Event
  | pinHigh
  | pinLow
  | paused (s : DelayStrategy)
  | burned (l : List Instr)
  deriving DecidableEq, Repr

/-- Is the event a write to the pin? -/
def isPinWrite : Event → Bool
  | Event.pinHigh => true
  | Event.pinLow => true
  | _ => false

/-- The control structure of the toggle loops: pin writes, pauses,
raw-cycle bursts, sequencing, and the never-exiting `loop` block. -/
inductive Cmd
  | setPinHigh
  | setPinLow
  | pause (s : DelayStrategy)
  | burn (l : List Instr)
  | seq (a b : Cmd)
  | loopForever (body : Cmd)
  deriving DecidableEq, Repr

/-- The body the `single_gpio!` macro expands to around a pause block:
`pin.set_high(); $pause; pin.set_low(); $pause` — the same pause block
twice.  The T19 loop body, though written inline, has the same shape
with the `Timer::at` pause. -/
def macroBody (s : DelayStrategy) : Cmd :=
  Cmd.seq Cmd.setPinHigh
    (Cmd.seq (Cmd.pause s) (Cmd.seq Cmd.setPinLow (Cmd.pause s)))

/-- The loop body of each dedicated assembly toggle function, on
platform `p` (the `#[cfg(feature = "pico2")]` blocks are present only
on the Pico 2). -/
def asmLoopBody (p : Platform) : AsmLoopFn → Cmd
  | AsmLoopFn.period200nsPico =>
      Cmd.seq Cmd.setPinHigh
        (Cmd.seq (Cmd.burn asm_10_cycles_nop)
          (Cmd.seq Cmd.setPinLow (Cmd.burn asm_9_cycles_nop)))
  | AsmLoopFn.period200ns =>
      match p with
      | Platform.pico =>
          Cmd.seq Cmd.setPinHigh
            (Cmd.seq (Cmd.burn asm_10_cycles_add_r2)
              (Cmd.seq Cmd.setPinLow (Cmd.burn asm_9_cycles_add_r2)))
      | Platform.pico2 =>
          Cmd.seq Cmd.setPinHigh
            (Cmd.seq (Cmd.burn asm_10_cycles_add_r2)
              (Cmd.seq (Cmd.burn asm_3_cycles_add_r2)
                (Cmd.seq Cmd.setPinLow
                  (Cmd.seq (Cmd.burn asm_9_cycles_add_r2)
                    (Cmd.burn asm_3_cycles_add_r2)))))
  | AsmLoopFn.period80ns =>
      match p with
      | Platform.pico =>
          Cmd.seq Cmd.setPinHigh
            (Cmd.seq (Cmd.burn asm_2_cycles_add_r2)
              (Cmd.seq Cmd.setPinLow (Cmd.burn asm_2_cycles_add_r2)))
      | Platform.pico2 =>
          Cmd.seq Cmd.setPinHigh
            (Cmd.seq (Cmd.burn asm_3_cycles_add_r2)
              (Cmd.seq Cmd.setPinLow
                (Cmd.seq (Cmd.burn asm_2_cycles_add_r2)
                  (Cmd.burn asm_2_cycles_add_r2))))
  | AsmLoopFn.periodMin => Cmd.seq Cmd.setPinHigh Cmd.setPinLow

/-- The body of the toggle loop entered for strategy `s` on platform
`p`: the assembly body for the raw-cycle strategies, otherwise the
`single_gpio!` macro body (also the shape of the inline T19 loop). -/
def loopBodyCmd (p : Platform) (s : DelayStrategy) : Cmd :=
  match s with
  | DelayStrategy.rawCycleAsm f => asmLoopBody p f
  | s => macroBody s

/-- The toggle loop entered for strategy `s` on platform `p`: every arm
of the source wraps its body in a `loop` block with no `break` and no
`return`. -/
def loopCmd (p : Platform) (s : DelayStrategy) : Cmd :=
  Cmd.loopForever (loopBodyCmd p s)

/-- Big-step semantics of `Cmd`: `BigStep c lv lv' tr` says running `c`
from pin level `lv` terminates at level `lv'` emitting trace `tr`.  A
`loopForever` runs its body once and then itself again, so it admits no
derivation (no finite execution). -/
inductive BigStep : Cmd → PinLevel → PinLevel → List Event → Prop
  | setHigh (lv : PinLevel) :
      BigStep Cmd.setPinHigh lv PinLevel.high [Event.pinHigh]
  | setLow (lv : PinLevel) :
      BigStep Cmd.setPinLow lv PinLevel.low [Event.pinLow]
  | pauseStep (s : DelayStrategy) (lv : PinLevel) :
      BigStep (Cmd.pause s) lv lv [Event.paused s]
  | burnStep (l : List Instr) (lv : PinLevel) :
      BigStep (Cmd.burn l) lv lv [Event.burned l]
  | seqStep {a b : Cmd} {lv₁ lv₂ lv₃ : PinLevel} {tr₁ tr₂ : List Event} :
      BigStep a lv₁ lv₂ tr₁ → BigStep b lv₂ lv₃ tr₂ →
      BigStep (Cmd.seq a b) lv₁ lv₃ (tr₁ ++ tr₂)
  | loopIter {body : Cmd} {lv₁ lv₂ lv₃ : PinLevel} {tr₁ tr₂ : List Event} :
      BigStep body lv₁ lv₂ tr₁ →
      BigStep (Cmd.loopForever body) lv₂ lv₃ tr₂ →
      BigStep (Cmd.loopForever body) lv₁ lv₃ (tr₁ ++ tr₂)

/-- Holds when `c` has a finite execution. -/
def Terminates (c : Cmd) : Prop :=
  ∃ lv lv' tr, BigStep c lv lv' tr

/-- No finite execution starts at a `loopForever` command. -/
theorem bigstep_not_loop {c : Cmd} {lv lv' : PinLevel} {tr : List Event}
    (h : BigStep c lv lv' tr) : ∀ b, c ≠ Cmd.loopForever b := by
  induction h with
  | setHigh lv => exact fun b hb => Cmd.noConfusion hb
  | setLow lv => exact fun b hb => Cmd.noConfusion hb
  | pauseStep s lv => exact fun b hb => Cmd.noConfusion hb
  | burnStep l lv => exact fun b hb => Cmd.noConfusion hb
  | seqStep h1 h2 ih1 ih2 => exact fun b hb => Cmd.noConfusion hb
  | loopIter h1 h2 ih1 ih2 => exact fun b hb => ih2 _ rfl

/-- Fuel-bounded interpreter for `Cmd`: `none` when the fuel runs out
before the command completes. -/
def run : ℕ → Cmd → PinLevel → Option (PinLevel × List Event)
  | 0, _, _ => none
  | _ + 1, Cmd.setPinHigh, _ => some (PinLevel.high, [Event.pinHigh])
  | _ + 1, Cmd.setPinLow, _ => some (PinLevel.low, [Event.pinLow])
  | _ + 1, Cmd.pause s, lv => some (lv, [Event.paused s])
  | _ + 1, Cmd.burn l, lv => some (lv, [Event.burned l])
  | fuel + 1, Cmd.seq a b, lv =>
      match run fuel a lv with
      | none => none
      | some (lv', tr₁) =>
          match run fuel b lv' with
          | none => none
          | some (lv'', tr₂) => some (lv'', tr₁ ++ tr₂)
  | fuel + 1, Cmd.loopForever body, lv =>
      match run fuel body lv with
      | none => none
      | some (lv', _) => run fuel (Cmd.loopForever body) lv'

/-- A `loopForever` command never completes within any finite fuel. -/
theorem run_loopForever_eq_none (b : Cmd) :
    ∀ fuel lv, run fuel (Cmd.loopForever b) lv = none := by
  intro fuel
  induction fuel with
  | zero => intro lv; rfl
  | succ n ih =>
      intro lv
      simp only [run]
      cases h : run n b lv with
      | none => rfl
      | some x => exact ih x.1

/-- Rust return types relevant here: the never type `!` or unit. -/
inductive RetTy
  | never
  | unit
  deriving DecidableEq, Repr

/-- Declared return type of `Test::single_gpio`: `-> !`. -/
def singleGpioRetTy : RetTy := RetTy.never

/-- Declared return types of the four assembly toggle-loop functions:
all `-> !`. -/
def asmLoopRetTy : AsmLoopFn → RetTy := fun _ => RetTy.never

end PicoTest

namespace PicoTest

/-- C5: once any toggle loop is entered it never returns: for every
platform and strategy the loop command admits no big-step execution
(no reachable exit path) and never completes under any finite fuel,
and the loop-entering functions (`single_gpio` and the four assembly
loops) all carry the never-returning type `!`. -/
theorem toggle_loops_never_return :
    (∀ p s, Terminates (loopCmd p s) ↔ False) ∧
    (∀ fuel p s lv, run fuel (loopCmd p s) lv = none) ∧
    singleGpioRetTy = RetTy.never ∧
    (∀ f, asmLoopRetTy f = RetTy.never) := by
  refine ⟨?_, ?_, rfl, fun f => rfl⟩
  · intro p s
    constructor
    · rintro ⟨lv, lv', tr, h⟩
      exact bigstep_not_loop h (loopBodyCmd p s) rfl
    · exact False.elim
  · intro fuel p s lv
    exact run_loopForever_eq_none (loopBodyCmd p s) fuel lv

/-- Evaluator for the loop-free fragment of `Cmd`: final pin level and
event trace (`none` on a nested loop). -/
def evalCmd : Cmd → PinLevel → Option (PinLevel × List Event)
  | Cmd.setPinHigh, _ => some (PinLevel.high, [Event.pinHigh])
  | Cmd.setPinLow, _ => some (PinLevel.low, [Event.pinLow])
  | Cmd.pause s, lv => some (lv, [Event.paused s])
  | Cmd.burn l, lv => some (lv, [Event.burned l])
  | Cmd.seq a b, lv =>
      match evalCmd a lv with
      | none => none
      | some (lv', tr₁) =>
          match evalCmd b lv' with
          | none => none
          | some (lv'', tr₂) => some (lv'', tr₁ ++ tr₂)
  | Cmd.loopForever _, _ => none

/-- Runs `n` iterations of a loop body from a pin level, accumulating
the event trace. -/
def runIters (body : Cmd) : ℕ → PinLevel → Option (PinLevel × List Event)
  | 0, lv => some (lv, [])
  | n + 1, lv =>
      match evalCmd body lv with
      | none => none
      | some (lv', tr₁) =>
          match runIters body n lv' with
          | none => none
          | some (lv'', tr₂) => some (lv'', tr₁ ++ tr₂)

/-- The static event trace of one iteration of the toggle loop for
strategy `s` on platform `p`, read off the source bodies. -/
def bodyEvents (p : Platform) (s : DelayStrategy) : List Event :=
  match s with
  | DelayStrategy.rawCycleAsm f =>
      match f, p with
      | AsmLoopFn.period200nsPico, _ =>
          [Event.pinHigh, Event.burned asm_10_cycles_nop,
           Event.pinLow, Event.burned asm_9_cycles_nop]
      | AsmLoopFn.period200ns, Platform.pico =>
          [Event.pinHigh, Event.burned asm_10_cycles_add_r2,
           Event.pinLow, Event.burned asm_9_cycles_add_r2]
      | AsmLoopFn.period200ns, Platform.pico2 =>
          [Event.pinHigh, Event.burned asm_10_cycles_add_r2,
           Event.burned asm_3_cycles_add_r2,
           Event.pinLow, Event.burned asm_9_cycles_add_r2,
           Event.burned asm_3_cycles_add_r2]
      | AsmLoopFn.period80ns, Platform.pico =>
          [Event.pinHigh, Event.burned asm_2_cycles_add_r2,
           Event.pinLow, Event.burned asm_2_cycles_add_r2]
      | AsmLoopFn.period80ns, Platform.pico2 =>
          [Event.pinHigh, Event.burned asm_3_cycles_add_r2,
           Event.pinLow, Event.burned asm_2_cycles_add_r2,
           Event.burned asm_2_cycles_add_r2]
      | AsmLoopFn.periodMin, _ => [Event.pinHigh, Event.pinLow]
  | s => [Event.pinHigh, Event.paused s, Event.pinLow, Event.paused s]

/-- One iteration of any toggle-loop body, entered at any pin level,
ends with the pin low and emits exactly its static event trace. -/
theorem evalCmd_loopBody (p : Platform) (s : DelayStrategy)
    (lv : PinLevel) :
    evalCmd (loopBodyCmd p s) lv = some (PinLevel.low, bodyEvents p s) := by
  cases s <;> try rfl
  rename_i f
  cases f <;> cases p <;> rfl

/-- C6: the output pin is constructed driven low, and `n` iterations of
any toggle loop from that state emit exactly `n` copies of one fixed
per-iteration event sequence ending with the pin low — an iteration's
first event is the drive-high write and its pin writes are exactly
drive-high then drive-low, with only pauses/bursts between; for the
macro loops both pauses of an iteration are the same `paused s` event,
so the strategy and its parameters never change once the loop is
entered. -/
theorem toggle_loop_iteration_invariant :
    outputInitLevel = PinLevel.low ∧
    (∀ p s n, runIters (loopBodyCmd p s) n outputInitLevel =
      some (PinLevel.low, (List.replicate n (bodyEvents p s)).flatten)) ∧
    (∀ p s, (bodyEvents p s).head? = some Event.pinHigh ∧
      (bodyEvents p s).filter isPinWrite =
        [Event.pinHigh, Event.pinLow]) ∧
    (∀ s n, runIters (macroBody s) n PinLevel.low =
      some (PinLevel.low,
        (List.replicate n
          [Event.pinHigh, Event.paused s,
           Event.pinLow, Event.paused s]).flatten)) := by
  have hiter : ∀ p s n lv, runIters (loopBodyCmd p s) n lv =
      some ((if n = 0 then lv else PinLevel.low),
        (List.replicate n (bodyEvents p s)).flatten) := by
    intro p s n
    induction n with
    | zero => intro lv; simp [runIters]
    | succ k ih =>
        intro lv
        simp only [runIters, evalCmd_loopBody p s lv, ih PinLevel.low,
          List.replicate_succ, List.flatten_cons]
        cases k <;> simp
  refine ⟨rfl, ?_, ?_, ?_⟩
  · intro p s n
    rw [hiter p s n outputInitLevel]
    cases n <;> rfl
  · intro p s
    refine ⟨?_, ?_⟩ <;>
      · cases s <;> try rfl
        rename_i f
        cases f <;> cases p <;> rfl
  · intro s n
    induction n with
    | zero => simp [runIters]
    | succ k ih =>
        have hb : ∀ lv, evalCmd (macroBody s) lv =
            some (PinLevel.low,
              [Event.pinHigh, Event.paused s,
               Event.pinLow, Event.paused s]) := by
          intro lv; rfl
        simp only [runIters, hb, ih, List.replicate_succ, List.flatten_cons]

/-- The calls appearing in a `single_gpio!` pause block. -/
inductive PauseAct
  | timerAfterMicros (us : ℕ)   -- `Timer::after_micros(us).await`
  | delayUs (us : ℕ)            -- `Delay.delay_us(us)`, blocking spin
  | delayNs (ns : ℕ)            -- `Delay.delay_ns(ns)`, blocking spin
  | yieldNow                    -- `yield_now().await`
  | cortexAsmDelay (c : ℕ)      -- `cortex_m::asm::delay(c)`, blocking
  deriving DecidableEq, Repr

/-- Is the act an `.await` (a suspension point that calls into the
cooperative scheduler)?  `Timer::after_micros(..).await` and
`yield_now().await` are; the blocking `Delay.delay_us`,
`Delay.delay_ns` and `cortex_m::asm::delay` calls are plain function
calls with no await. -/
def isSuspension : PauseAct → Bool
  | PauseAct.timerAfterMicros _ => true
  | PauseAct.yieldNow => true
  | _ => false

/-- Is the act one of the blocking `embedded_hal` spin delays? -/
def isBlockingSpin : PauseAct → Bool
  | PauseAct.delayUs _ => true
  | PauseAct.delayNs _ => true
  | _ => false

/-- The pause block each macro-based test's loop runs between pin
writes, straight from the `single_gpio!` invocations (tests 1-13; the
raw-assembly tests 14-18 have no pause block, and T19's inline loop is
modelled separately). -/
def pauseBlock : TestNum → List PauseAct
  | TestNum.t1 => [PauseAct.timerAfterMicros 100]
  | TestNum.t2 => [PauseAct.timerAfterMicros 10]
  | TestNum.t3 => [PauseAct.timerAfterMicros 1]
  | TestNum.t4 => [PauseAct.delayUs 100]
  | TestNum.t5 => [PauseAct.delayUs 10]
  | TestNum.t6 => [PauseAct.delayUs 2]
  | TestNum.t7 => [PauseAct.delayUs 1]
  | TestNum.t8 => [PauseAct.delayNs 100]
  | TestNum.t9 => [PauseAct.delayUs 100, PauseAct.yieldNow]
  | TestNum.t10 => [PauseAct.delayUs 10, PauseAct.yieldNow]
  | TestNum.t11 => [PauseAct.delayUs 1, PauseAct.yieldNow]
  | TestNum.t12 => [PauseAct.cortexAsmDelay 2]
  | TestNum.t13 => []
  | _ => []

/-- Number of suspension points in a pause block. -/
def suspensionCount (l : List PauseAct) : ℕ := l.countP fun a => isSuspension a

end PicoTest

namespace PicoTest

/-- C7: the pause blocks of the blocking-spin tests 4-8 consist only of
blocking `Delay.delay_us`/`Delay.delay_ns` calls and contain no await,
so they reach zero suspension points per pause; the cooperative pause
blocks of tests 1-3 are a single `Timer::after_micros(..).await`,
exactly one suspension point per pause. -/
theorem blocking_vs_cooperative_pauses :
    suspensionCount (pauseBlock TestNum.t4) = 0 ∧
    suspensionCount (pauseBlock TestNum.t5) = 0 ∧
    suspensionCount (pauseBlock TestNum.t6) = 0 ∧
    suspensionCount (pauseBlock TestNum.t7) = 0 ∧
    suspensionCount (pauseBlock TestNum.t8) = 0 ∧
    ([TestNum.t4, TestNum.t5, TestNum.t6, TestNum.t7,
      TestNum.t8].all fun n =>
        (pauseBlock n).all fun a => isBlockingSpin a) = true ∧
    suspensionCount (pauseBlock TestNum.t1) = 1 ∧
    suspensionCount (pauseBlock TestNum.t2) = 1 ∧
    suspensionCount (pauseBlock TestNum.t3) = 1 ∧
    ([TestNum.t1, TestNum.t2, TestNum.t3].all fun n =>
        (pauseBlock n).length = 1 &&
          (pauseBlock n).all fun a => isSuspension a) = true := by
  decide

/-- The T19 half-period: `Duration::from_micros(10)`, in µs. -/
def t19PeriodUs : ℕ := 10

/-- The running `expires` instant (in µs) after `k` pauses of the T19
loop: the loop starts from `Instant::now()` captured once before the
loop and performs `expires += _10us` before each `Timer::at(expires)`
await, never re-reading the clock inside the loop. -/
def expiresAfterPauses (init : ℕ) : ℕ → ℕ
  | 0 => init
  | k + 1 => expiresAfterPauses init k + t19PeriodUs

/-- C8: each T19 wake deadline is obtained by adding the fixed 10 µs
half-period to the running instant, so after `k` pauses the deadline is
exactly the initial instant plus `k` times 10 µs — each pause advances
it by precisely 10 µs and no per-iteration drift term accumulates. -/
theorem t19_deadline_accumulation :
    ∀ (init k : ℕ),
      expiresAfterPauses init k = init + k * t19PeriodUs ∧
      expiresAfterPauses init (k + 1) =
        expiresAfterPauses init k + t19PeriodUs := by
  intro init k
  constructor
  · induction k with
    | zero => simp [expiresAfterPauses]
    | succ m ih => simp [expiresAfterPauses, ih]; ring
  · rfl

/-- Address `SIO_BASE`: the RP2040 SIO base address `0xd0000000`. -/
def SIO_BASE : ℕ := 0xd0000000

/-- Address `GPIO_OUT`: the GPIO output register, `SIO_BASE + 0x010`. -/
def GPIO_OUT : ℕ := SIO_BASE + 0x010

/-- The value `asm_load_gpio_out_addr` computes into `r0`:
`movs r1, #0xd0`; `lsls r1, r1, #24`; `movs r2, #0x10`;
`adds r0, r1, r2`, with 32-bit register arithmetic. -/
def asmLoadGpioOutValue : ℕ := ((0xd0 * 2 ^ 24) % 2 ^ 32 + 0x10) % 2 ^ 32

/-- The literal `set_gpio2_high` stores through `r1`: `movs r1, #4`
(bit 2 for GPIO 2). -/
def setGpio2HighValue : ℕ := 4

/-- The literal `set_gpio2_low` stores through `r1`: `movs r1, #0`. -/
def setGpio2LowValue : ℕ := 0

/-- Effect of the `str r1, [r0]` in the toggle primitives on the GPIO
output register: a whole-register 32-bit store — the new register
content is the stored value, whatever the register held before (this
is not a set/clear single-bit update). -/
def gpioStore (_reg v : ℕ) : ℕ := v % 2 ^ 32

end PicoTest

namespace PicoTest

/-- C10: the toggle primitives write full 32-bit values to
`GPIO_OUT = 0xd0000010` (the address the assembly loads into `r0`):
`set_gpio2_high` stores 4, which sets bit 2 and forces every other
output bit to zero regardless of the register's prior contents, and
`set_gpio2_low` stores 0, clearing all output bits. -/
theorem gpio_toggle_full_register_writes :
    GPIO_OUT = 0xd0000010 ∧
    asmLoadGpioOutValue = GPIO_OUT ∧
    (∀ r, gpioStore r setGpio2HighValue = 4) ∧
    (∀ r, gpioStore r setGpio2LowValue = 0) ∧
    Nat.testBit setGpio2HighValue 2 = true ∧
    (∀ r k, k ≠ 2 →
      Nat.testBit (gpioStore r setGpio2HighValue) k = false) ∧
    (∀ r k, Nat.testBit (gpioStore r setGpio2LowValue) k = false) := by
  have hhigh : ∀ r, gpioStore r setGpio2HighValue = 4 := fun r => rfl
  have hlow : ∀ r, gpioStore r setGpio2LowValue = 0 := fun r => rfl
  refine ⟨by norm_num [GPIO_OUT, SIO_BASE],
    by norm_num [asmLoadGpioOutValue, GPIO_OUT, SIO_BASE],
    hhigh, hlow, by decide, ?_, ?_⟩
  · intro r k hk
    rw [hhigh r]
    match k with
    | 0 => decide
    | 1 => decide
    | 2 => exact absurd rfl hk
    | m + 3 =>
        apply Nat.testBit_lt_two_pow
        calc 4 < 2 ^ 3 := by norm_num
          _ ≤ 2 ^ (m + 3) := Nat.pow_le_pow_right (by norm_num) (by omega)
  · intro r k
    rw [hlow r]
    exact Nat.zero_testBit k

/-- Witness for `gpio_toggle_full_register_writes`: with the register
previously holding `0xffffffff` (every output bit set), storing the
`set_gpio2_high` literal leaves bit 5 — a bit other than 2 — clear. -/
theorem gpio_toggle_full_register_writes_witness :
    (5 : ℕ) ≠ 2 ∧
    Nat.testBit (gpioStore 0xffffffff setGpio2HighValue) 5 = false :=
  ⟨by decide,
   gpio_toggle_full_register_writes.2.2.2.2.2.1 0xffffffff 5 (by decide)⟩

/-- Constant `BOARD`: the board name selected by the platform feature. -/
def boardName : Platform → String
  | Platform.pico => "Pico"
  | Platform.pico2 => "Pico 2"

/-- The other of the two supported boards. -/
def otherPlatform : Platform → Platform
  | Platform.pico => Platform.pico2
  | Platform.pico2 => Platform.pico

/-- Description text of the macro-based tests 1-13, exactly as passed
to `single_gpio!`. -/
def testDesc : TestNum → String
  | TestNum.t1 => "~200us period using yielding Timer::after_micros"
  | TestNum.t2 => "~20us period using yielding Timer::after_micros"
  | TestNum.t3 => "~2us period using yielding Timer::after_micros"
  | TestNum.t4 => "200us period using blocking Delay.delay_us"
  | TestNum.t5 => "20us period using blocking Delay.delay_us"
  | TestNum.t6 => "4us period using blocking Delay.delay_us"
  | TestNum.t7 => "2us period using blocking Delay.delay_us"
  | TestNum.t8 => "not near 200ns period using blocking Delay.delay_ns"
  | TestNum.t9 => "~200us period using blocking Delay.delay_us then yield_now()"
  | TestNum.t10 => "~20us period using blocking Delay.delay_us then yield_now()"
  | TestNum.t11 => "~2us period using blocking Delay.delay_us then yield_now()"
  | TestNum.t12 => "\"2 cycle\" delay using blocking cortex_m::asm::delay()"
  | TestNum.t13 => "As fast as possible with no delay and embassy GPIO functions"
  | _ => ""

/-- The diagnostic lines each arm of the `single_gpio` match emits
before its loop starts (empty for the unimplemented tests, which panic
instead). -/
def armLines (p : Platform) : TestNum → List String
  | TestNum.t14 =>
      [": Using same assembly for both Pico and Pico 2"] ++
        (match p with
          | Platform.pico =>
              [": 200ns period using asm (Pico)    <== selected",
               ": 100ns period using asm (Pico 2)"]
          | Platform.pico2 =>
              [": 200ns period using asm (Pico)",
               ": 100ns period using asm (Pico 2)  <== selected"]) ++
        [": Starting"]
  | TestNum.t15 =>
      [": Using Pico and Pico 2 specific assembly",
       ": 200ns period using asm on both Pico and Pico 2",
       ": Starting"]
  | TestNum.t16 =>
      [": Using Pico and Pico 2 specific assembly",
       ": 80ns period using asm on both Pico and Pico 2",
       ": Low drive strength (2mA)",
       ": Starting"]
  | TestNum.t17 =>
      [": Using same assembly for both Pico and Pico 2"] ++
        (match p with
          | Platform.pico =>
              [": 48ns period using asm (Pico)    <== selected",
               ": 34ns period using asm (Pico 2)"]
          | Platform.pico2 =>
              [": 48ns period using asm (Pico)",
               ": 34ns period using asm (Pico 2)  <== selected"]) ++
        [": Low drive strength (2mA)", ": Starting"]
  | TestNum.t18 =>
      [": Using same assembly for both Pico and Pico 2"] ++
        (match p with
          | Platform.pico =>
              [": 48ns period using asm (Pico)    <== selected",
               ": 34ns period using asm (Pico 2)"]
          | Platform.pico2 =>
              [": 48ns period using asm (Pico)",
               ": 34ns period using asm (Pico 2)  <== selected"]) ++
        [": High drive strength (12mA)", ": Starting"]
  | TestNum.t19 =>
      [": Using Pico and Pico 2 specific assembly",
       ": 20us period using asm on both Pico and Pico 2",
       ": Uses Timer::at()",
       ": Starting"]
  | TestNum.t20 => []
  | TestNum.t21 => []
  | TestNum.t22 => []
  | TestNum.t23 => []
  | TestNum.t24 => []
  | TestNum.t25 => []
  | n => [": " ++ testDesc n, ": Starting"]

/-- All diagnostic lines emitted before any toggle loop begins: the
`main` banner, the clock-speed line, the test-number line, the pin
line, then the arm's own lines. -/
def startupLines (p : Platform) (n : TestNum) : List String :=
  ["embassy-pico-test",
   boardName p ++ " clock speed: " ++ Nat.repr (clkFreqHz p) ++ " Hz",
   "Single GPIO Timing test #" ++ Nat.repr n.num,
   ": Using GPIO 2"] ++ armLines p n

/-- The primary description line of each implemented test (`none` for
the unimplemented ones). -/
def descLine : TestNum → Option String
  | TestNum.t14 => some (": Using same assembly for both Pico and Pico 2")
  | TestNum.t15 =>
      some (": 200ns period using asm on both Pico and Pico 2")
  | TestNum.t16 =>
      some (": 80ns period using asm on both Pico and Pico 2")
  | TestNum.t17 => some (": Using same assembly for both Pico and Pico 2")
  | TestNum.t18 => some (": Using same assembly for both Pico and Pico 2")
  | TestNum.t19 =>
      some (": 20us period using asm on both Pico and Pico 2")
  | TestNum.t20 => none
  | TestNum.t21 => none
  | TestNum.t22 => none
  | TestNum.t23 => none
  | TestNum.t24 => none
  | TestNum.t25 => none
  | n => some (": " ++ testDesc n)

/-- Tests whose identical source selects different nominal periods on
the two platforms: 14, 17 and 18. -/
def isAmbiguous (n : TestNum) : Bool :=
  n == TestNum.t14 || n == TestNum.t17 || n == TestNum.t18

/-- The nominal-period text applying to platform `p` for an ambiguous
test. -/
def nominalPeriodText (p : Platform) : TestNum → String
  | TestNum.t14 =>
      match p with
      | Platform.pico => ": 200ns period using asm (Pico)"
      | Platform.pico2 => ": 100ns period using asm (Pico 2)"
  | TestNum.t17 =>
      match p with
      | Platform.pico => ": 48ns period using asm (Pico)"
      | Platform.pico2 => ": 34ns period using asm (Pico 2)"
  | TestNum.t18 =>
      match p with
      | Platform.pico => ": 48ns period using asm (Pico)"
      | Platform.pico2 => ": 34ns period using asm (Pico 2)"
  | _ => ""

/-- The spacing between an ambiguous test's period text and the
`<== selected` marker in the source lines. -/
def selPad : Platform → String
  | Platform.pico => "    "
  | Platform.pico2 => "  "

end PicoTest

namespace PicoTest

/-- C9: before any toggle loop begins, the diagnostics identify the
board and its clock frequency, the selected test number, and the
test's description; for the ambiguous tests 14, 17 and 18 the period
line of the running platform carries the `<== selected` marker while
the other platform's period line appears without it. -/
theorem startup_diagnostics (p : Platform) (n : TestNum)
    (hn : n.num ≤ 19) :
    (boardName p ++ " clock speed: " ++ Nat.repr (clkFreqHz p) ++ " Hz")
      ∈ startupLines p n ∧
    ("Single GPIO Timing test #" ++ Nat.repr n.num) ∈ startupLines p n ∧
    (∃ d, descLine n = some d ∧ d ∈ startupLines p n) ∧
    (isAmbiguous n = true →
      (nominalPeriodText p n ++ selPad p ++ "<== selected")
        ∈ startupLines p n ∧
      nominalPeriodText (otherPlatform p) n ∈ startupLines p n ∧
      (nominalPeriodText (otherPlatform p) n ++
        selPad (otherPlatform p) ++ "<== selected")
        ∉ startupLines p n) := by
  cases p <;> cases n <;>
    first
      | exact absurd hn (by decide)
      | exact ⟨by decide, by decide, ⟨_, rfl, by decide⟩,
          fun ha => absurd ha (by decide)⟩
      | exact ⟨by decide, by decide, ⟨_, rfl, by decide⟩,
          fun _ => ⟨by decide, by decide, by decide⟩⟩

/-- Witness for `startup_diagnostics`: on the Pico running test 14, the
Pico's 200 ns period line carries the selected marker. -/
theorem startup_diagnostics_witness :
    TestNum.t14.num ≤ 19 ∧ isAmbiguous TestNum.t14 = true ∧
    (nominalPeriodText Platform.pico TestNum.t14 ++ selPad Platform.pico ++
      "<== selected") ∈ startupLines Platform.pico TestNum.t14 :=
  ⟨by decide, by decide,
   ((startup_diagnostics Platform.pico TestNum.t14
      (by decide)).2.2.2 (by decide)).1⟩

end PicoTest

namespace PicoTest

/-- C1: the platform-specific raw-cycle tests converge on the same
period on both boards: T15 runs 25 cycles per iteration on the Pico and
30 on the Pico 2 — the 30 being the 24 Pico-2 cycles of the shared
instruction stream plus two extra 3-cycle adjustment blocks — and both
counts give exactly 200 ns; T16 runs 10 cycles on the Pico and 12 on
the Pico 2, both giving exactly 80 ns. -/
theorem raw_cycle_cross_platform_convergence :
    cyclesOn Platform.pico (t15Body Platform.pico) = 25 ∧
    cyclesOn Platform.pico2 (t15Body Platform.pico2) = 30 ∧
    cyclesOn Platform.pico2 (t15Body Platform.pico2) =
      cyclesOn Platform.pico2 (t15Body Platform.pico) +
        2 * cyclesOn Platform.pico2 asm_3_cycles_add_r2 ∧
    (∀ p, elapsedNs p (cyclesOn p (t15Body p)) = 200) ∧
    cyclesOn Platform.pico (t16Body Platform.pico) = 10 ∧
    cyclesOn Platform.pico2 (t16Body Platform.pico2) = 12 ∧
    (∀ p, elapsedNs p (cyclesOn p (t16Body p)) = 80) := by
  refine ⟨by decide, by decide, by decide, ?_, by decide, by decide, ?_⟩
  · intro p
    cases p
    · have h : cyclesOn Platform.pico (t15Body Platform.pico) = 25 := by
        decide
      rw [h]
      norm_num [elapsedNs, nsPerCycle, clkFreqHz]
    · have h : cyclesOn Platform.pico2 (t15Body Platform.pico2) = 30 := by
        decide
      rw [h]
      norm_num [elapsedNs, nsPerCycle, clkFreqHz]
  · intro p
    cases p
    · have h : cyclesOn Platform.pico (t16Body Platform.pico) = 10 := by
        decide
      rw [h]
      norm_num [elapsedNs, nsPerCycle, clkFreqHz]
    · have h : cyclesOn Platform.pico2 (t16Body Platform.pico2) = 12 := by
        decide
      rw [h]
      norm_num [elapsedNs, nsPerCycle, clkFreqHz]

/-- C2: the single shared instruction stream of T14 diverges across
platforms exactly as documented: one iteration is 25 cycles on the Pico
(exactly 200 ns at 8 ns/cycle) and 15 cycles on the Pico 2 (100 ns);
the 10 + 9 burn cycles alone account for only 152 ns on the Pico, and
the 200 ns target is met exactly once the two 2-cycle pin toggles and
the 2-cycle branch are added to the 19 burn cycles. -/
theorem t14_platform_divergence :
    cyclesOn Platform.pico t14Body = 25 ∧
    elapsedNs Platform.pico (cyclesOn Platform.pico t14Body) = 200 ∧
    cyclesOn Platform.pico2 t14Body = 15 ∧
    elapsedNs Platform.pico2 (cyclesOn Platform.pico2 t14Body) = 100 ∧
    cyclesOn Platform.pico (asm_10_cycles_nop ++ asm_9_cycles_nop) = 19 ∧
    elapsedNs Platform.pico 19 = 152 ∧
    elapsedNs Platform.pico 19 ≠ 200 ∧
    cyclesOn Platform.pico t14Body =
      cyclesOn Platform.pico (asm_10_cycles_nop ++ asm_9_cycles_nop) +
        cyclesOn Platform.pico set_gpio2_high +
        cyclesOn Platform.pico set_gpio2_low + cyclePico Instr.branch := by
  refine ⟨by decide, ?_, by decide, ?_, by decide, ?_, ?_, by decide⟩
  · have h : cyclesOn Platform.pico t14Body = 25 := by decide
    rw [h]
    norm_num [elapsedNs, nsPerCycle, clkFreqHz]
  · have h : cyclesOn Platform.pico2 t14Body = 15 := by decide
    rw [h]
    norm_num [elapsedNs, nsPerCycle, clkFreqHz]
  · norm_num [elapsedNs, nsPerCycle, clkFreqHz]
  · norm_num [elapsedNs, nsPerCycle, clkFreqHz]

/-- C3: each "burn N cycles" primitive consists of exactly its named
number of one-cycle instructions and contains no branch: the nop
variants are 9 and 10 `nop`s, the register variants are 1, 2, 3, 5, 9
and 10 `movs`/`adds` instructions, each costing one Pico cycle, so the
Pico cycle count of every primitive equals its name and is fixed by the
instruction list alone (no data-dependent branching). -/
theorem burn_primitives_exact_cycles :
    asm_9_cycles_nop.length = 9 ∧
    asm_9_cycles_nop.all (fun i => i = Instr.nop) = true ∧
    asm_10_cycles_nop.length = 10 ∧
    asm_10_cycles_nop.all (fun i => i = Instr.nop) = true ∧
    asm_1_cycle_r2.length = 1 ∧
    asm_2_cycles_add_r2.length = 2 ∧
    asm_3_cycles_add_r2.length = 3 ∧
    asm_5_cycles_r2.length = 5 ∧
    asm_9_cycles_add_r2.length = 9 ∧
    asm_10_cycles_add_r2.length = 10 ∧
    ([asm_1_cycle_r2, asm_2_cycles_add_r2, asm_3_cycles_add_r2,
      asm_5_cycles_r2, asm_9_cycles_add_r2,
      asm_10_cycles_add_r2].all
        (fun l =>
          l.all (fun i => i = Instr.movs || i = Instr.adds))) = true ∧
    (burnPrimitives.all (fun pr => cyclesPico pr.1 = pr.2)) = true ∧
    (burnPrimitives.all
      (fun pr => pr.1.all (fun i => cyclePico i = 1))) = true ∧
    (burnPrimitives.all (fun pr => !pr.1.contains Instr.branch)) = true := by
  decide

end PicoTest
